import Mathlib

/-!
Verification development for the upower battery telemetry aggregator
(src/src/modules/upower.rs and src/src/clients/upower/mod.rs).

The aggregator keeps a shared map from a device's native path to its
`UpowerProperties` record.  A single fetch task reads all properties of every
enumerated device once and inserts an entry per battery device; one listener
task per device applies incremental property-change events to the map and
broadcasts a full snapshot of the map after each event.

The embedding below mirrors the Rust source:
* zbus variant values become the `WireValue` inductive; a failing
  `downcast`/`downcast_ref` becomes `none`.
* A Rust panic (`expect` on a failed downcast, or indexing a missing key of
  the property `HashMap`) aborts the surrounding task; it is modelled as an
  error value carrying the panic message.  State mutations performed before
  the panic remain visible, exactly as with in-place mutation through the
  shared map.
* The shared `HashMap<String, UpowerProperties>` becomes an association list
  with lookup and insert-or-replace operations.
* The `changed_properties` map of one signal is modelled as the list of its
  entries in some iteration order.
* 64-bit floating point payloads are only ever decoded, stored and copied by
  the aggregator, never computed with, so an `f64` payload is modelled by its
  bit pattern (`F64`), which preserves the store/copy behaviour exactly.
-/

namespace Ironbar

/-- Battery state enumeration, re-exported from `src/clients/upower/dbus.rs`
(`pub use dbus::BatteryState`); the variants in the order the spec lists them. -/
inductive BatteryState where
  | Unknown
  | Charging
  | Discharging
  | Empty
  | FullyCharged
  | PendingCharge
  | PendingDischarge
deriving DecidableEq, Repr

/-- Modelled from the spec: the numeric discriminants (`BatteryState as u32`)
are fixed in `src/clients/upower/dbus.rs`, which is not part of the provided
sources.  Spec section 3 lists the variants in order
`Unknown | Charging | Discharging | Empty | FullyCharged | PendingCharge |
PendingDischarge` and section 8 fixes `u32_to_battery_state(1) = Charging`,
giving the default consecutive discriminants 0..6. -/
def BatteryState.toU32 : BatteryState → Nat
  | .Unknown => 0
  | .Charging => 1
  | .Discharging => 2
  | .Empty => 3
  | .FullyCharged => 4
  | .PendingCharge => 5
  | .PendingDischarge => 6

/-- Function `u32_to_battery_state` (upower.rs:369-387): compares the wire code against
each variant's discriminant in turn and returns the unmapped code as the
error value. -/
def u32_to_battery_state (number : Nat) : Except Nat BatteryState :=
  if number = BatteryState.Unknown.toU32 then .ok .Unknown
  else if number = BatteryState.Charging.toU32 then .ok .Charging
  else if number = BatteryState.Discharging.toU32 then .ok .Discharging
  else if number = BatteryState.Empty.toU32 then .ok .Empty
  else if number = BatteryState.FullyCharged.toU32 then .ok .FullyCharged
  else if number = BatteryState.PendingCharge.toU32 then .ok .PendingCharge
  else if number = BatteryState.PendingDischarge.toU32 then .ok .PendingDischarge
  else .error number

/-- Bit pattern of a 64-bit floating point wire value.  The aggregator never
performs floating-point arithmetic on `Percentage`: it is decoded, stored and
copied verbatim, so the payload is kept opaque.  IEEE-754 `+0.0` is the
all-zero pattern `⟨0⟩`. -/
structure F64 where
  bits : Nat
deriving DecidableEq, Repr

/-- An untyped zbus wire value, restricted to the variants the module
downcasts to: `f64`, `i64`, `u32` and string. -/
inductive WireValue where
  | f64 (x : F64)
  | i64 (x : Int)
  | u32 (x : Nat)
  | str (s : String)
deriving DecidableEq, Repr

/-- Rust `downcast_ref::<f64>()` / `downcast::<f64>()`: succeeds exactly on an
`f64` variant. -/
def WireValue.downcastF64 : WireValue → Option F64
  | .f64 x => some x
  | _ => none

/-- Rust `downcast_ref::<i64>()` / `downcast::<i64>()`: succeeds exactly on an
`i64` variant. -/
def WireValue.downcastI64 : WireValue → Option Int
  | .i64 x => some x
  | _ => none

/-- Rust `downcast_ref::<u32>()` / `downcast::<u32>()`: succeeds exactly on a
`u32` variant. -/
def WireValue.downcastU32 : WireValue → Option Nat
  | .u32 x => some x
  | _ => none

/-- Rust `downcast_ref::<&str>()`: succeeds exactly on a string variant. -/
def WireValue.downcastStr : WireValue → Option String
  | .str s => some s
  | _ => none

/-- Record `UpowerProperties` (upower.rs:61-67): the per-device record kept in the
shared map. -/
structure UpowerProperties where
  percentage : F64
  icon_name : String
  state : BatteryState
  time_to_full : Int
  time_to_empty : Int
deriving DecidableEq, Repr

/-- The zero-valued record the listener materializes with
`entry(..).or_insert_with(..)` (upower.rs:178-184): percentage `0.0`, empty
icon name, `Unknown` state, zero times. -/
def defaultProperties : UpowerProperties :=
  { percentage := ⟨0⟩
    icon_name := ""
    state := BatteryState.Unknown
    time_to_full := 0
    time_to_empty := 0 }

/-- The shared `HashMap<String, UpowerProperties>` (upower.rs:90), modelled as
an association list keyed by the device's native path. -/
abbrev Store := List (String × UpowerProperties)

/-- Map lookup (`HashMap::get` / `entry` probe): first binding of the key. -/
def storeFind : Store → String → Option UpowerProperties
  | [], _ => none
  | (k, v) :: rest, key => if k = key then some v else storeFind rest key

/-- Map insert-or-replace (`HashMap::insert`, or in-place mutation of the
entry returned by `entry(..).or_insert_with(..)`). -/
def storeInsert : Store → String → UpowerProperties → Store
  | [], key, v => [(key, v)]
  | (k, w) :: rest, key, v =>
    if k = key then (key, v) :: rest else (k, w) :: storeInsert rest key v

/-- The interface name every event is filtered against (upower.rs:87-88). -/
def deviceInterfaceName : String := "org.freedesktop.UPower.Device"

/-- One `PropertiesChanged` signal: its interface name and the entries of its
`changed_properties` map in iteration order. -/
structure ChangeEvent where
  interface_name : String
  changed_properties : List (String × WireValue)
deriving DecidableEq, Repr

/-- One arm of the listener's per-field match (upower.rs:186-216).  A failed
`expect` is a panic, modelled as `Except.error` with the panic message.  The
`State` arm first downcasts to `u32` with `unwrap_or(0)` and only then panics
if `u32_to_battery_state` rejects the code; an unrecognized field name falls
to the `_ => {}` arm and changes nothing. -/
def applyField (props : UpowerProperties) (name : String) (changed_value : WireValue) :
    Except String UpowerProperties :=
  if name = "Percentage" then
    match changed_value.downcastF64 with
    | some x => .ok { props with percentage := x }
    | none => .error "expected Percentage to be f64"
  else if name = "IconName" then
    match changed_value.downcastStr with
    | some s => .ok { props with icon_name := s }
    | none => .error "expected IconName to be str"
  else if name = "State" then
    match u32_to_battery_state (changed_value.downcastU32.getD 0) with
    | .ok s => .ok { props with state := s }
    | .error _ => .error "expected State to be BatteryState"
  else if name = "TimeToFull" then
    match changed_value.downcastI64 with
    | some t => .ok { props with time_to_full := t }
    | none => .error "expected TimeToFull to be i64"
  else if name = "TimeToEmpty" then
    match changed_value.downcastI64 with
    | some t => .ok { props with time_to_empty := t }
    | none => .error "expected TimeToEmpty to be i64"
  else
    .ok props

/-- The listener's `for (name, changed_value) in args.changed_properties` loop
(upower.rs:186-216) over the entries of one event, applied left to right.  A
panic stops the loop; fields already applied stay applied (the record was
mutated in place through the map entry), and the panic message is returned
alongside the record as mutated so far. -/
def applyFieldsPartial (props : UpowerProperties) :
    List (String × WireValue) → UpowerProperties × Option String
  | [] => (props, none)
  | (name, v) :: rest =>
    match applyField props name v with
    | .ok props2 => applyFieldsPartial props2 rest
    | .error e => (props, some e)

/-- Result of the listener processing one signal: either the loop body ran to
completion (with the snapshots broadcast during it) or it panicked, killing
the listener task but leaving the map mutations made so far. -/
inductive StepResult where
  | ok (store : Store) (published : List Store)
  | panicked (store : Store) (msg : String)
deriving DecidableEq, Repr

/-- One iteration of the listener's `while let Some(signal)` loop
(upower.rs:172-219) for the device identified by `native_path`.  An event on
a different interface is skipped (`continue`): no lock, no mutation, no
broadcast.  Otherwise the entry is looked up, materialized with
`defaultProperties` when absent, every changed field is applied, and a single
full snapshot of the map is broadcast with `tx.send_update` after the field
loop.  A per-field panic aborts the iteration before the broadcast. -/
def listenerStep (native_path : String) (store : Store) (ev : ChangeEvent) : StepResult :=
  if ev.interface_name = deviceInterfaceName then
    let entry := (storeFind store native_path).getD defaultProperties
    match applyFieldsPartial entry ev.changed_properties with
    | (props, none) =>
      .ok (storeInsert store native_path props) [storeInsert store native_path props]
    | (props, some e) => .panicked (storeInsert store native_path props) e
  else
    .ok store []

/-- The listener task's event loop over a finite prefix of its signal stream:
returns the final map, every snapshot broadcast in order, and the panic
message if the task died (events after a panic are never processed). -/
def runListener (native_path : String) (store : Store) :
    List ChangeEvent → Store × List Store × Option String
  | [] => (store, [], none)
  | ev :: rest =>
    match listenerStep native_path store ev with
    | .ok store2 pubs =>
      let (store3, pubs2, e) := runListener native_path store2 rest
      (store3, pubs ++ pubs2, e)
    | .panicked store2 e => (store2, [], some e)

/-- Rust's `Option::expect`: the value, or a panic with the given message
(modelled as `Except.error`). -/
def expectMsg {α : Type} (o : Option α) (msg : String) : Except String α :=
  match o with
  | some a => .ok a
  | none => .error msg

/-- Lookup in the bulk property map returned by `proxy.get_all(..)`.  Rust
indexes this `HashMap` directly (`raw_props["Type"]`), so a missing key also
panics; both the missing key and a failed downcast are folded into the one
panic modelled per field. -/
def propsGet : List (String × WireValue) → String → Option WireValue
  | [], _ => none
  | (k, v) :: rest, key => if k = key then some v else propsGet rest key

/-- The fetch task's body for a single device (upower.rs:100-147): decode
`Type`; a non-battery device (`Type ≠ 2`) is skipped with `continue`
(`ok none`); otherwise decode the remaining properties — any panic aborts
with the `expect` message — and produce the native path and record to insert.
`State` maps an unmapped code to `Unknown` via `unwrap_or`. -/
def fetchDevice (raw : List (String × WireValue)) :
    Except String (Option (String × UpowerProperties)) := do
  let bat_type ← expectMsg ((propsGet raw "Type").bind WireValue.downcastU32)
    "expected Type: u32 in HashMap of all properties"
  if bat_type ≠ 2 then
    return none
  let native_path ← expectMsg ((propsGet raw "NativePath").bind WireValue.downcastStr)
    "expected NativePath: str in HashMap of all properties"
  let percentage ← expectMsg ((propsGet raw "Percentage").bind WireValue.downcastF64)
    "expected percentage: f64 in HashMap of all properties"
  let icon_name ← expectMsg ((propsGet raw "IconName").bind WireValue.downcastStr)
    "expected IconName: str in HashMap of all properties"
  let stateCode ← expectMsg ((propsGet raw "State").bind WireValue.downcastU32)
    "expected State: u32 in HashMap of all properties"
  let state :=
    match u32_to_battery_state stateCode with
    | .ok s => s
    | .error _ => BatteryState.Unknown
  let time_to_full ← expectMsg ((propsGet raw "TimeToFull").bind WireValue.downcastI64)
    "expected TimeToFull: i64 in HashMap of all properties"
  let time_to_empty ← expectMsg ((propsGet raw "TimeToEmpty").bind WireValue.downcastI64)
    "expected TimeToEmpty: i64 in HashMap of all properties"
  return some (native_path,
    { percentage := percentage
      icon_name := icon_name
      state := state
      time_to_full := time_to_full
      time_to_empty := time_to_empty })

/-- The single `init_props` task (upower.rs:98-152): one `for` loop over all
enumerated devices inside one spawned future.  A panic (or propagated error)
in any iteration aborts the whole task: devices later in the enumeration are
never fetched and the final `tx.send_update` of the map is skipped.  On
normal completion the full map is broadcast once. -/
def runFetch (store : Store) : List (List (String × WireValue)) →
    Store × List Store × Option String
  | [] => (store, [store], none)
  | raw :: rest =>
    match fetchDevice raw with
    | .ok none => runFetch store rest
    | .ok (some (native_path, props)) => runFetch (storeInsert store native_path props) rest
    | .error e => (store, [], some e)

/-- The controller's listener-spawn loop (upower.rs:156-170): one listener is
spawned per proxy in `display_proxies` — with no battery-type filter — and
each resolves its device identity by decoding `NativePath` from a fresh
`get_all` read (panicking on failure kills only that listener). -/
def listenerIdentities (devices : List (List (String × WireValue))) :
    List (Except String String) :=
  devices.map fun raw =>
    expectMsg ((propsGet raw "NativePath").bind WireValue.downcastStr)
      "expected NativePath: str in HashMap of all properties"

/-- Atomic lock-relevant operations of the tasks, used to state in which
order the mutex is taken and released around a snapshot broadcast. -/
inductive LockAction where
  | lock
  | applyChangedFields
  | cloneSnapshot
  | sendUpdate
  | unlock
deriving DecidableEq, Repr

/-- Order of lock operations in one matching iteration of the listener loop:
the guard is acquired at upower.rs:177 (`properties_map.lock().await`), the
changed fields are applied at 186-216, the map is cloned and the snapshot
sent at 218 (`tx.send_update(properties_map.clone()).await`) while the guard
is still live, and the guard is dropped only at the end of the loop body,
after the send completes. -/
def listenerLockTrace : List LockAction :=
  [.lock, .applyChangedFields, .cloneSnapshot, .sendUpdate, .unlock]

/-- Order of lock operations in the fetch task's final publish, upower.rs:149
(`tx.send_update(properties_map.lock().await.clone()).await`): the temporary
guard produced by `.lock()` lives to the end of the statement, so it too is
released only after the send completes. -/
def fetchPublishLockTrace : List LockAction :=
  [.lock, .cloneSnapshot, .sendUpdate, .unlock]

/-- The index of the first occurrence of an action in a trace (length of the
trace when absent). -/
def traceIndex (a : LockAction) : List LockAction → Nat
  | [] => 0
  | b :: rest => if b = a then 0 else traceIndex a rest + 1

/-- Specification-side helper: the last value for field `field` in a stream
of (name, value) entries whose decoding `decode` succeeds, starting from
`init`.  Entries for other fields, and entries `decode` rejects, leave the
accumulator unchanged. -/
def lastDecoded {α : Type} (decode : WireValue → Option α) (field : String)
    (init : α) (l : List (String × WireValue)) : α :=
  l.foldl (fun acc p => if p.1 = field then (decode p.2).getD acc else acc) init

/-- Specification-side decoder for the `State` field as the listener treats
it: a non-`u32` wire value falls back to code 0 (`unwrap_or(0)`), and an
unmapped code is a failure. -/
def decodeStateField (v : WireValue) : Option BatteryState :=
  match u32_to_battery_state (v.downcastU32.getD 0) with
  | .ok s => some s
  | .error _ => none

/-- The events of a stream whose interface name matches the device
interface — the ones the listener does not skip. -/
def matchingEvents (events : List ChangeEvent) : List ChangeEvent :=
  events.filter fun ev => ev.interface_name = deviceInterfaceName

/-- The flattened stream of changed fields carried by the matching events,
in order. -/
def matchedFields (events : List ChangeEvent) : List (String × WireValue) :=
  (matchingEvents events).flatMap ChangeEvent.changed_properties

/-- The five property names the listener's match recognizes. -/
def recognizedFields : List String :=
  ["Percentage", "IconName", "State", "TimeToFull", "TimeToEmpty"]

/-- Specification-side record: each of the five recognized fields holds the
last decoded value supplied for its field name in `l`, starting from the
corresponding field of `init`. -/
def lastEntry (init : UpowerProperties) (l : List (String × WireValue)) : UpowerProperties :=
  { percentage := lastDecoded WireValue.downcastF64 "Percentage" init.percentage l
    icon_name := lastDecoded WireValue.downcastStr "IconName" init.icon_name l
    state := lastDecoded decodeStateField "State" init.state l
    time_to_full := lastDecoded WireValue.downcastI64 "TimeToFull" init.time_to_full l
    time_to_empty := lastDecoded WireValue.downcastI64 "TimeToEmpty" init.time_to_empty l }

section Lemmas

theorem lastDecoded_cons {α : Type} (decode : WireValue → Option α) (field : String)
    (init : α) (n : String) (v : WireValue) (l : List (String × WireValue)) :
    lastDecoded decode field init ((n, v) :: l) =
      lastDecoded decode field (if n = field then (decode v).getD init else init) l := rfl

theorem lastDecoded_append {α : Type} (decode : WireValue → Option α) (field : String)
    (init : α) (l l' : List (String × WireValue)) :
    lastDecoded decode field init (l ++ l') =
      lastDecoded decode field (lastDecoded decode field init l) l' := by
  unfold lastDecoded
  rw [List.foldl_append]

theorem storeFind_insert_self (s : Store) (k : String) (v : UpowerProperties) :
    storeFind (storeInsert s k v) k = some v := by
  induction s with
  | nil => simp [storeInsert, storeFind]
  | cons p rest ih =>
    obtain ⟨k', w⟩ := p
    by_cases h : k' = k
    · simp [storeInsert, storeFind, h]
    · simp [storeInsert, storeFind, h, ih]

theorem storeFind_insert_other (s : Store) (k key : String) (v : UpowerProperties)
    (h : key ≠ k) : storeFind (storeInsert s k v) key = storeFind s key := by
  have hk : ¬(k = key) := fun hkk => h hkk.symm
  induction s with
  | nil => simp [storeInsert, storeFind, hk]
  | cons p rest ih =>
    obtain ⟨k', w⟩ := p
    by_cases h1 : k' = k
    · subst h1
      simp [storeInsert, storeFind, hk]
    · simp [storeInsert, storeFind, h1, ih]

theorem storeInsert_found (s : Store) (k : String) (v : UpowerProperties)
    (h : storeFind s k = some v) : storeInsert s k v = s := by
  induction s with
  | nil => simp [storeFind] at h
  | cons p rest ih =>
    obtain ⟨k', w⟩ := p
    by_cases hk : k' = k
    · subst hk
      simp [storeFind] at h
      simp [storeInsert, h]
    · simp [storeFind, hk] at h
      simp [storeInsert, hk, ih h]

theorem u32_to_battery_state_ok (s : BatteryState) :
    u32_to_battery_state s.toU32 = Except.ok s := by
  cases s <;> rfl

theorem u32_to_battery_state_error (n : Nat) (h : ∀ s : BatteryState, n ≠ s.toU32) :
    u32_to_battery_state n = Except.error n := by
  unfold u32_to_battery_state
  rw [if_neg (h .Unknown), if_neg (h .Charging), if_neg (h .Discharging), if_neg (h .Empty),
    if_neg (h .FullyCharged), if_neg (h .PendingCharge), if_neg (h .PendingDischarge)]

theorem u32_to_battery_state_error_of_ge (n : Nat) (h : 7 ≤ n) :
    u32_to_battery_state n = Except.error n := by
  refine u32_to_battery_state_error n ?_
  intro s
  cases s <;> simp [BatteryState.toU32] <;> omega

theorem applyFieldsPartial_unrecognized (l : List (String × WireValue)) :
    ∀ p : UpowerProperties,
      (∀ nv ∈ l, nv.1 ∉ recognizedFields) → applyFieldsPartial p l = (p, none) := by
  induction l with
  | nil => intro p _; rfl
  | cons nv rest ih =>
    obtain ⟨name, v⟩ := nv
    intro p hl
    have h0 := hl (name, v) (List.mem_cons_self _ _)
    simp only [recognizedFields, List.mem_cons, List.not_mem_nil, or_false, not_or] at h0
    obtain ⟨h1, h2, h3, h4, h5⟩ := h0
    have ha : applyField p name v = .ok p := by
      simp [applyField, h1, h2, h3, h4, h5]
    simp only [applyFieldsPartial, ha]
    exact ih p (fun nv hnv => hl nv (List.mem_cons_of_mem _ hnv))

theorem applyFieldsPartial_last (l : List (String × WireValue)) :
    ∀ p q : UpowerProperties, applyFieldsPartial p l = (q, none) →
      q.percentage = lastDecoded WireValue.downcastF64 "Percentage" p.percentage l ∧
      q.icon_name = lastDecoded WireValue.downcastStr "IconName" p.icon_name l ∧
      q.state = lastDecoded decodeStateField "State" p.state l ∧
      q.time_to_full = lastDecoded WireValue.downcastI64 "TimeToFull" p.time_to_full l ∧
      q.time_to_empty = lastDecoded WireValue.downcastI64 "TimeToEmpty" p.time_to_empty l := by
  induction l with
  | nil =>
    intro p q h
    simp only [applyFieldsPartial, Prod.mk.injEq] at h
    rw [← h.1]
    exact ⟨rfl, rfl, rfl, rfl, rfl⟩
  | cons nv rest ih =>
    obtain ⟨name, v⟩ := nv
    intro p q h
    simp only [applyFieldsPartial] at h
    cases hap : applyField p name v with
    | error e =>
      rw [hap] at h
      simp at h
    | ok p2 =>
      rw [hap] at h
      by_cases h1 : name = "Percentage"
      · subst h1
        cases hv : v.downcastF64 with
        | none => simp [applyField, hv] at hap
        | some x =>
          simp [applyField, hv] at hap
          subst hap
          obtain ⟨e1, e2, e3, e4, e5⟩ := ih _ _ h
          refine ⟨?_, ?_, ?_, ?_, ?_⟩ <;>
            simp [lastDecoded_cons, hv, e1, e2, e3, e4, e5]
      · by_cases h2 : name = "IconName"
        · subst h2
          cases hv : v.downcastStr with
          | none => simp [applyField, hv] at hap
          | some s =>
            simp [applyField, hv] at hap
            subst hap
            obtain ⟨e1, e2, e3, e4, e5⟩ := ih _ _ h
            refine ⟨?_, ?_, ?_, ?_, ?_⟩ <;>
              simp [lastDecoded_cons, hv, e1, e2, e3, e4, e5]
        · by_cases h3 : name = "State"
          · subst h3
            cases hst : u32_to_battery_state (v.downcastU32.getD 0) with
            | error m => simp [applyField, hst] at hap
            | ok s =>
              simp [applyField, hst] at hap
              subst hap
              have hd : decodeStateField v = some s := by
                simp [decodeStateField, hst]
              obtain ⟨e1, e2, e3, e4, e5⟩ := ih _ _ h
              refine ⟨?_, ?_, ?_, ?_, ?_⟩ <;>
                simp [lastDecoded_cons, hd, e1, e2, e3, e4, e5]
          · by_cases h4 : name = "TimeToFull"
            · subst h4
              cases hv : v.downcastI64 with
              | none => simp [applyField, hv] at hap
              | some t =>
                simp [applyField, hv] at hap
                subst hap
                obtain ⟨e1, e2, e3, e4, e5⟩ := ih _ _ h
                refine ⟨?_, ?_, ?_, ?_, ?_⟩ <;>
                  simp [lastDecoded_cons, hv, e1, e2, e3, e4, e5]
            · by_cases h5 : name = "TimeToEmpty"
              · subst h5
                cases hv : v.downcastI64 with
                | none => simp [applyField, hv] at hap
                | some t =>
                  simp [applyField, hv] at hap
                  subst hap
                  obtain ⟨e1, e2, e3, e4, e5⟩ := ih _ _ h
                  refine ⟨?_, ?_, ?_, ?_, ?_⟩ <;>
                    simp [lastDecoded_cons, hv, e1, e2, e3, e4, e5]
              · simp [applyField, h1, h2, h3, h4, h5] at hap
                subst hap
                obtain ⟨e1, e2, e3, e4, e5⟩ := ih _ _ h
                refine ⟨?_, ?_, ?_, ?_, ?_⟩ <;>
                  simp [lastDecoded_cons, h1, h2, h3, h4, h5, e1, e2, e3, e4, e5]

theorem matchingEvents_cons_matching (ev : ChangeEvent) (rest : List ChangeEvent)
    (h : ev.interface_name = deviceInterfaceName) :
    matchingEvents (ev :: rest) = ev :: matchingEvents rest := by
  simp [matchingEvents, h]

theorem matchingEvents_cons_not (ev : ChangeEvent) (rest : List ChangeEvent)
    (h : ev.interface_name ≠ deviceInterfaceName) :
    matchingEvents (ev :: rest) = matchingEvents rest := by
  simp [matchingEvents, h]

theorem matchedFields_cons_matching (ev : ChangeEvent) (rest : List ChangeEvent)
    (h : ev.interface_name = deviceInterfaceName) :
    matchedFields (ev :: rest) = ev.changed_properties ++ matchedFields rest := by
  simp [matchedFields, matchingEvents_cons_matching ev rest h]

theorem matchedFields_cons_not (ev : ChangeEvent) (rest : List ChangeEvent)
    (h : ev.interface_name ≠ deviceInterfaceName) :
    matchedFields (ev :: rest) = matchedFields rest := by
  simp [matchedFields, matchingEvents_cons_not ev rest h]

theorem matchedFields_nil (events : List ChangeEvent) (h : matchingEvents events = []) :
    matchedFields events = [] := by
  simp [matchedFields, h]

theorem lastEntry_append (init : UpowerProperties) (l l' : List (String × WireValue)) :
    lastEntry init (l ++ l') = lastEntry (lastEntry init l) l' := by
  simp [lastEntry, lastDecoded_append]

theorem lastEntry_nil (init : UpowerProperties) : lastEntry init [] = init := rfl

theorem applyFieldsPartial_eq_lastEntry (l : List (String × WireValue))
    (p q : UpowerProperties) (h : applyFieldsPartial p l = (q, none)) :
    q = lastEntry p l := by
  obtain ⟨f1, f2, f3, f4, f5⟩ := applyFieldsPartial_last l p q h
  have he : q = ⟨q.percentage, q.icon_name, q.state, q.time_to_full, q.time_to_empty⟩ := rfl
  rw [he, f1, f2, f3, f4, f5]
  rfl

theorem runListener_cons_matching_ok (np : String) (store : Store) (ev : ChangeEvent)
    (rest : List ChangeEvent) (q : UpowerProperties)
    (hint : ev.interface_name = deviceInterfaceName)
    (happ : applyFieldsPartial ((storeFind store np).getD defaultProperties)
      ev.changed_properties = (q, none)) :
    runListener np store (ev :: rest) =
      ((runListener np (storeInsert store np q) rest).1,
        storeInsert store np q :: (runListener np (storeInsert store np q) rest).2.1,
        (runListener np (storeInsert store np q) rest).2.2) := by
  simp [runListener, listenerStep, hint, happ]

theorem runListener_cons_matching_panic (np : String) (store : Store) (ev : ChangeEvent)
    (rest : List ChangeEvent) (q : UpowerProperties) (e : String)
    (hint : ev.interface_name = deviceInterfaceName)
    (happ : applyFieldsPartial ((storeFind store np).getD defaultProperties)
      ev.changed_properties = (q, some e)) :
    runListener np store (ev :: rest) = (storeInsert store np q, [], some e) := by
  simp [runListener, listenerStep, hint, happ]

theorem runListener_cons_not_matching (np : String) (store : Store) (ev : ChangeEvent)
    (rest : List ChangeEvent) (hne : ev.interface_name ≠ deviceInterfaceName) :
    runListener np store (ev :: rest) = runListener np store rest := by
  simp [runListener, listenerStep, hne]

end Lemmas

section Claims

/-- C10: round-trip of the state codec: for each of the seven `BatteryState`
variants `s`, `u32_to_battery_state (s as u32) = Ok s`, and
`u32_to_battery_state n = Err n` exactly when `n` equals none of the seven
variants' discriminants. -/
theorem C10_state_codec_roundtrip :
    (∀ s : BatteryState, u32_to_battery_state s.toU32 = Except.ok s) ∧
    (∀ n : Nat, u32_to_battery_state n = Except.error n ↔
      ∀ s : BatteryState, n ≠ s.toU32) := by
  refine ⟨u32_to_battery_state_ok, fun n => ⟨?_, u32_to_battery_state_error n⟩⟩
  intro h s hn
  rw [hn, u32_to_battery_state_ok s] at h
  exact Except.noConfusion h

/-- C3 counterexample: in the listener context a `State` change event carrying
the unmapped code 99 is a decode failure, not a non-fatal mapping to
`Unknown`: `u32_to_battery_state 99 = Err 99` and the listener's `State` arm
panics on it (`expect`), killing the task with no value stored for the code. -/
theorem C3_counterexample_state99_panics :
    u32_to_battery_state 99 = Except.error 99 ∧
    listenerStep "bat0" [] ⟨deviceInterfaceName, [("State", WireValue.u32 99)]⟩ =
      StepResult.panicked [("bat0", defaultProperties)] "expected State to be BatteryState" :=
  ⟨rfl, rfl⟩

/-- C3 amended: `u32_to_battery_state 1 = Ok Charging`, but the mapping is not
total in the listener context: every code outside the seven known
discriminants (equivalently every code `≥ 7`) maps to `Err code`, and a
`State` change event carrying such a code panics the listener task instead of
storing `Unknown`.  (The fetch path, by contrast, defaults unmapped codes to
`Unknown` via `unwrap_or`.) -/
theorem C3_amended_unmapped_state_panics (n : Nat) (h : 7 ≤ n) :
    u32_to_battery_state 1 = Except.ok BatteryState.Charging ∧
    u32_to_battery_state n = Except.error n ∧
    ∀ (native_path : String) (store : Store),
      listenerStep native_path store ⟨deviceInterfaceName, [("State", WireValue.u32 n)]⟩ =
        StepResult.panicked
          (storeInsert store native_path ((storeFind store native_path).getD defaultProperties))
          "expected State to be BatteryState" := by
  refine ⟨rfl, u32_to_battery_state_error_of_ge n h, ?_⟩
  intro native_path store
  simp [listenerStep, applyFieldsPartial, applyField, WireValue.downcastU32,
    u32_to_battery_state_error_of_ge n h]

/-- C3 amended, witnessed at code 99 on an empty store. -/
theorem C3_amended_witness :
    7 ≤ 99 ∧
    listenerStep "bat9" [] ⟨deviceInterfaceName, [("State", WireValue.u32 99)]⟩ =
      StepResult.panicked [("bat9", defaultProperties)] "expected State to be BatteryState" :=
  ⟨by decide, (C3_amended_unmapped_state_panics 99 (by decide)).2.2 "bat9" []⟩

/-- C2 counterexample: a change event whose `Percentage` value is mistyped
(a string) panics the listener task: the whole update aborts, no snapshot is
published, and the validly typed `IconName` in the same event is never
applied (the stored entry still has the empty default icon name). -/
theorem C2_counterexample_mistyped_field_aborts :
    listenerStep "bat0" []
      ⟨deviceInterfaceName,
        [("Percentage", WireValue.str "not a float"), ("IconName", WireValue.str "battery-good")]⟩ =
      StepResult.panicked [("bat0", defaultProperties)] "expected Percentage to be f64" := rfl

/-- C2 amended: in the listener a type-mismatched wire value for
`Percentage`, `IconName`, `TimeToFull` or `TimeToEmpty` panics the task
(aborting the rest of the event's fields and the publish, while mutations
already made stay in the store); only for `State` is a type mismatch
swallowed, decoding as code 0 and storing `Unknown`; unrecognized field
names are ignored. -/
theorem C2_amended_per_field_policy (p : UpowerProperties) (v : WireValue) :
    (v.downcastF64 = none →
      applyField p "Percentage" v = Except.error "expected Percentage to be f64") ∧
    (v.downcastStr = none →
      applyField p "IconName" v = Except.error "expected IconName to be str") ∧
    (v.downcastI64 = none →
      applyField p "TimeToFull" v = Except.error "expected TimeToFull to be i64") ∧
    (v.downcastI64 = none →
      applyField p "TimeToEmpty" v = Except.error "expected TimeToEmpty to be i64") ∧
    (v.downcastU32 = none →
      applyField p "State" v = Except.ok { p with state := BatteryState.Unknown }) ∧
    (∀ name : String, name ∉ recognizedFields → applyField p name v = Except.ok p) ∧
    (∀ (native_path : String) (store : Store) (ev : ChangeEvent)
        (q : UpowerProperties) (e : String),
      ev.interface_name = deviceInterfaceName →
      applyFieldsPartial ((storeFind store native_path).getD defaultProperties)
        ev.changed_properties = (q, some e) →
      listenerStep native_path store ev =
        StepResult.panicked (storeInsert store native_path q) e) := by
  refine ⟨?_, ?_, ?_, ?_, ?_, ?_, ?_⟩
  · intro hv; simp [applyField, hv]
  · intro hv; simp [applyField, hv]
  · intro hv; simp [applyField, hv]
  · intro hv; simp [applyField, hv]
  · intro hv; simp [applyField, hv, u32_to_battery_state, BatteryState.toU32]
  · intro name hname
    simp only [recognizedFields, List.mem_cons, List.not_mem_nil, or_false, not_or] at hname
    obtain ⟨h1, h2, h3, h4, h5⟩ := hname
    simp [applyField, h1, h2, h3, h4, h5]
  · intro native_path store ev q e hint happ
    simp [listenerStep, hint, happ]

/-- C2 amended, witnessed: the mistyped string panics the `Percentage` arm,
is swallowed as `Unknown` by the `State` arm, and an unrecognized field name
(`Voltage`) is a no-op. -/
theorem C2_amended_witness :
    (WireValue.str "oops").downcastF64 = none ∧
    applyField defaultProperties "Percentage" (WireValue.str "oops") =
      Except.error "expected Percentage to be f64" ∧
    (WireValue.str "oops").downcastU32 = none ∧
    applyField defaultProperties "State" (WireValue.str "oops") =
      Except.ok { defaultProperties with state := BatteryState.Unknown } ∧
    applyField defaultProperties "Voltage" (WireValue.u32 5) = Except.ok defaultProperties := by
  have h := C2_amended_per_field_policy defaultProperties (WireValue.str "oops")
  have h2 := C2_amended_per_field_policy defaultProperties (WireValue.u32 5)
  exact ⟨rfl, h.1 rfl, rfl, h.2.2.2.2.1 rfl, h2.2.2.2.2.2.1 "Voltage" (by decide)⟩

/-- C8 counterexample: the snapshot broadcast (`send_update`) happens before
the mutex is released, in the listener loop and in the fetch task's publish
alike: the lock is held across the asynchronous send, contradicting the
claimed release-before-send ordering. -/
theorem C8_counterexample_lock_held_across_send :
    traceIndex LockAction.sendUpdate listenerLockTrace <
      traceIndex LockAction.unlock listenerLockTrace ∧
    traceIndex LockAction.sendUpdate fetchPublishLockTrace <
      traceIndex LockAction.unlock fetchPublishLockTrace := by decide

/-- C8 amended: every publish clones the full map while holding the lock
(lock, then clone, then send), but the guard is dropped only after the
asynchronous `send_update` completes, in both publish sites. -/
theorem C8_amended_publish_order :
    (traceIndex LockAction.lock listenerLockTrace <
       traceIndex LockAction.cloneSnapshot listenerLockTrace ∧
     traceIndex LockAction.cloneSnapshot listenerLockTrace <
       traceIndex LockAction.sendUpdate listenerLockTrace ∧
     traceIndex LockAction.sendUpdate listenerLockTrace <
       traceIndex LockAction.unlock listenerLockTrace) ∧
    (traceIndex LockAction.lock fetchPublishLockTrace <
       traceIndex LockAction.cloneSnapshot fetchPublishLockTrace ∧
     traceIndex LockAction.cloneSnapshot fetchPublishLockTrace <
       traceIndex LockAction.sendUpdate fetchPublishLockTrace ∧
     traceIndex LockAction.sendUpdate fetchPublishLockTrace <
       traceIndex LockAction.unlock fetchPublishLockTrace) := by decide

/-- C5: a device whose `Type` property decodes to a value other than the
battery category code 2 is skipped silently by the fetch: `fetchDevice`
returns neither an error nor an entry, and the fetch over a device list
starting with such a device equals the fetch over the remaining devices. -/
theorem C5_non_battery_skipped (raw : List (String × WireValue)) (t : Nat)
    (h : (propsGet raw "Type").bind WireValue.downcastU32 = some t) (ht : t ≠ 2) :
    fetchDevice raw = Except.ok none ∧
    ∀ (store : Store) (rest : List (List (String × WireValue))),
      runFetch store (raw :: rest) = runFetch store rest := by
  have h1 : fetchDevice raw = Except.ok none := by
    simp [fetchDevice, h, expectMsg, ht, Bind.bind, Except.bind, Pure.pure, Except.pure]
  exact ⟨h1, fun store rest => by simp [runFetch, h1]⟩

/-- C5, witnessed: a line-power device (`Type = 1`) contributes zero entries. -/
theorem C5_witness :
    (propsGet [("Type", WireValue.u32 1)] "Type").bind WireValue.downcastU32 = some 1 ∧
    (1 : Nat) ≠ 2 ∧
    fetchDevice [("Type", WireValue.u32 1)] = Except.ok none ∧
    runFetch [] [[("Type", WireValue.u32 1)]] = runFetch [] [] := by
  have h := C5_non_battery_skipped [("Type", WireValue.u32 1)] 1 rfl (by decide)
  exact ⟨rfl, by decide, h.1, h.2 [] []⟩

/-- C1: for every sequence of change events the listener processes without
failure, the resulting entry for the device is exactly the record whose five
recognized fields each hold the last successfully decoded value supplied for
that field name across the matching events — fields never named keep the
entry's prior default or fetched value (`lastEntry` starts from it); entries
of other devices are untouched; a stream with no matching event leaves the
store unchanged; and a matching event naming only unrecognized field names
leaves the store unchanged. -/
theorem C1_listener_merges_last_decoded (native_path : String) :
    (∀ (events : List ChangeEvent) (store : Store),
      (runListener native_path store events).2.2 = none →
      (∀ k, k ≠ native_path →
        storeFind (runListener native_path store events).1 k = storeFind store k) ∧
      (matchingEvents events = [] → (runListener native_path store events).1 = store) ∧
      (matchingEvents events ≠ [] →
        storeFind (runListener native_path store events).1 native_path =
          some (lastEntry ((storeFind store native_path).getD defaultProperties)
            (matchedFields events)))) ∧
    (∀ (ev : ChangeEvent) (store : Store) (q : UpowerProperties),
      ev.interface_name = deviceInterfaceName →
      storeFind store native_path = some q →
      (∀ nv ∈ ev.changed_properties, nv.1 ∉ recognizedFields) →
      listenerStep native_path store ev = StepResult.ok store [store]) := by
  constructor
  · intro events
    induction events with
    | nil =>
      intro store _
      exact ⟨fun k _ => rfl, fun _ => rfl, fun hne => absurd rfl hne⟩
    | cons ev rest ih =>
      intro store hok
      by_cases hm : ev.interface_name = deviceInterfaceName
      · rcases happ : applyFieldsPartial ((storeFind store native_path).getD defaultProperties)
          ev.changed_properties with ⟨q1, err⟩
        cases err with
        | some e =>
          rw [runListener_cons_matching_panic native_path store ev rest q1 e hm happ] at hok
          simp at hok
        | none =>
          have hrw := runListener_cons_matching_ok native_path store ev rest q1 hm happ
          rw [hrw] at hok
          obtain ⟨ihf, ihe, ihl⟩ := ih (storeInsert store native_path q1) hok
          have hq1 : q1 = lastEntry ((storeFind store native_path).getD defaultProperties)
              ev.changed_properties :=
            applyFieldsPartial_eq_lastEntry _ _ _ happ
          refine ⟨?_, ?_, ?_⟩
          · intro k hk
            rw [hrw]
            rw [ihf k hk, storeFind_insert_other store native_path k q1 hk]
          · intro hcon
            rw [matchingEvents_cons_matching ev rest hm] at hcon
            exact absurd hcon (List.cons_ne_nil ev (matchingEvents rest))
          · intro _
            rw [hrw, matchedFields_cons_matching ev rest hm, lastEntry_append]
            by_cases hrest : matchingEvents rest = []
            · rw [ihe hrest, storeFind_insert_self, matchedFields_nil rest hrest,
                lastEntry_nil, hq1]
            · rw [ihl hrest, storeFind_insert_self]
              simp only [Option.getD_some]
              rw [hq1]
      · have hrw := runListener_cons_not_matching native_path store ev rest hm
        rw [hrw] at hok
        obtain ⟨ihf, ihe, ihl⟩ := ih store hok
        refine ⟨?_, ?_, ?_⟩
        · intro k hk
          rw [hrw]
          exact ihf k hk
        · intro hcon
          rw [matchingEvents_cons_not ev rest hm] at hcon
          rw [hrw]
          exact ihe hcon
        · intro hne
          rw [matchingEvents_cons_not ev rest hm] at hne
          rw [hrw, matchedFields_cons_not ev rest hm]
          exact ihl hne
  · intro ev store q hint hfound hunrec
    have happ := applyFieldsPartial_unrecognized ev.changed_properties q hunrec
    have hfound2 : (storeFind store native_path).getD defaultProperties = q := by
      rw [hfound]
      rfl
    simp [listenerStep, hint, hfound2, happ, storeInsert_found store native_path q hfound]

/-- C1, witnessed on a three-event stream from an empty store: a matching
event supplying `Percentage` twice across events (with junk and a
non-matching event interleaved) ends with the last decoded `Percentage` and
`State`, the defaults elsewhere, and no entry for another key. -/
theorem C1_witness :
    (runListener "bat0" []
      [⟨deviceInterfaceName, [("Percentage", WireValue.f64 ⟨57⟩), ("Junk", WireValue.u32 9)]⟩,
       ⟨"org.freedesktop.Other", [("Percentage", WireValue.f64 ⟨99⟩)]⟩,
       ⟨deviceInterfaceName, [("Percentage", WireValue.f64 ⟨60⟩), ("State", WireValue.u32 1)]⟩]).2.2
      = none ∧
    ("AC" : String) ≠ "bat0" ∧
    storeFind (runListener "bat0" []
      [⟨deviceInterfaceName, [("Percentage", WireValue.f64 ⟨57⟩), ("Junk", WireValue.u32 9)]⟩,
       ⟨"org.freedesktop.Other", [("Percentage", WireValue.f64 ⟨99⟩)]⟩,
       ⟨deviceInterfaceName, [("Percentage", WireValue.f64 ⟨60⟩), ("State", WireValue.u32 1)]⟩]).1
      "AC" = storeFind [] "AC" ∧
    matchingEvents
      [⟨deviceInterfaceName, [("Percentage", WireValue.f64 ⟨57⟩), ("Junk", WireValue.u32 9)]⟩,
       ⟨"org.freedesktop.Other", [("Percentage", WireValue.f64 ⟨99⟩)]⟩,
       ⟨deviceInterfaceName, [("Percentage", WireValue.f64 ⟨60⟩), ("State", WireValue.u32 1)]⟩] ≠ [] ∧
    storeFind (runListener "bat0" []
      [⟨deviceInterfaceName, [("Percentage", WireValue.f64 ⟨57⟩), ("Junk", WireValue.u32 9)]⟩,
       ⟨"org.freedesktop.Other", [("Percentage", WireValue.f64 ⟨99⟩)]⟩,
       ⟨deviceInterfaceName, [("Percentage", WireValue.f64 ⟨60⟩), ("State", WireValue.u32 1)]⟩]).1
      "bat0" =
      some (lastEntry ((storeFind ([] : Store) "bat0").getD defaultProperties)
        (matchedFields
          [⟨deviceInterfaceName, [("Percentage", WireValue.f64 ⟨57⟩), ("Junk", WireValue.u32 9)]⟩,
           ⟨"org.freedesktop.Other", [("Percentage", WireValue.f64 ⟨99⟩)]⟩,
           ⟨deviceInterfaceName, [("Percentage", WireValue.f64 ⟨60⟩), ("State", WireValue.u32 1)]⟩])) ∧
    lastEntry ((storeFind ([] : Store) "bat0").getD defaultProperties)
      (matchedFields
        [⟨deviceInterfaceName, [("Percentage", WireValue.f64 ⟨57⟩), ("Junk", WireValue.u32 9)]⟩,
         ⟨"org.freedesktop.Other", [("Percentage", WireValue.f64 ⟨99⟩)]⟩,
         ⟨deviceInterfaceName, [("Percentage", WireValue.f64 ⟨60⟩), ("State", WireValue.u32 1)]⟩]) =
      { percentage := ⟨60⟩, icon_name := "", state := BatteryState.Charging,
        time_to_full := 0, time_to_empty := 0 } := by
  have h := (C1_listener_merges_last_decoded "bat0").1
    [⟨deviceInterfaceName, [("Percentage", WireValue.f64 ⟨57⟩), ("Junk", WireValue.u32 9)]⟩,
     ⟨"org.freedesktop.Other", [("Percentage", WireValue.f64 ⟨99⟩)]⟩,
     ⟨deviceInterfaceName, [("Percentage", WireValue.f64 ⟨60⟩), ("State", WireValue.u32 1)]⟩]
    [] rfl
  exact ⟨rfl, by decide, h.1 "AC" (by decide), by decide, h.2.2 (by decide), by decide⟩

/-- C4 counterexample: a decode failure for one device's fetch is not
isolated to that device.  With BAT0 enumerated first carrying a mistyped
`Percentage` and a fully well-formed battery BAT1 second, the single fetch
task aborts on BAT0: BAT1 — whose fetch succeeds in isolation, as the second
conjunct shows — never gets a store entry, and the final publish is skipped.
With the order reversed, BAT1's entry survives but the publish is still
skipped. -/
theorem C4_counterexample_fetch_not_isolated :
    runFetch []
      [[("Type", WireValue.u32 2), ("NativePath", WireValue.str "BAT0"),
        ("Percentage", WireValue.str "bad")],
       [("Type", WireValue.u32 2), ("NativePath", WireValue.str "BAT1"),
        ("Percentage", WireValue.f64 ⟨57⟩), ("IconName", WireValue.str "battery-good"),
        ("State", WireValue.u32 1), ("TimeToFull", WireValue.i64 0),
        ("TimeToEmpty", WireValue.i64 7200)]] =
      ([], [], some "expected percentage: f64 in HashMap of all properties") ∧
    fetchDevice
      [("Type", WireValue.u32 2), ("NativePath", WireValue.str "BAT1"),
       ("Percentage", WireValue.f64 ⟨57⟩), ("IconName", WireValue.str "battery-good"),
       ("State", WireValue.u32 1), ("TimeToFull", WireValue.i64 0),
       ("TimeToEmpty", WireValue.i64 7200)] =
      Except.ok (some ("BAT1",
        { percentage := ⟨57⟩, icon_name := "battery-good", state := BatteryState.Charging,
          time_to_full := 0, time_to_empty := 7200 })) ∧
    runFetch []
      [[("Type", WireValue.u32 2), ("NativePath", WireValue.str "BAT1"),
        ("Percentage", WireValue.f64 ⟨57⟩), ("IconName", WireValue.str "battery-good"),
        ("State", WireValue.u32 1), ("TimeToFull", WireValue.i64 0),
        ("TimeToEmpty", WireValue.i64 7200)],
       [("Type", WireValue.u32 2), ("NativePath", WireValue.str "BAT0"),
        ("Percentage", WireValue.str "bad")]] =
      ([("BAT1",
         { percentage := ⟨57⟩, icon_name := "battery-good", state := BatteryState.Charging,
           time_to_full := 0, time_to_empty := 7200 })], [],
        some "expected percentage: f64 in HashMap of all properties") :=
  ⟨rfl, rfl, rfl⟩

/-- C4 amended: a decode failure in the fetch aborts the entire single fetch
task, not just that device's fetch: devices already processed keep their
entries, but the devices remaining after the failing one are never fetched
and the final publish of the map is skipped. -/
theorem C4_amended_fetch_abort (store : Store) (raw : List (String × WireValue))
    (rest : List (List (String × WireValue))) (e : String)
    (h : fetchDevice raw = Except.error e) :
    runFetch store (raw :: rest) = (store, [], some e) := by
  simp [runFetch, h]

/-- C4 amended, witnessed: the fetch aborts on a mistyped `Percentage`,
leaving the well-formed device of the tail unfetched. -/
theorem C4_amended_witness :
    fetchDevice
      [("Type", WireValue.u32 2), ("NativePath", WireValue.str "BAT0"),
       ("Percentage", WireValue.str "bad")] =
      Except.error "expected percentage: f64 in HashMap of all properties" ∧
    runFetch []
      [[("Type", WireValue.u32 2), ("NativePath", WireValue.str "BAT0"),
        ("Percentage", WireValue.str "bad")],
       [("Type", WireValue.u32 2), ("NativePath", WireValue.str "BAT1"),
        ("Percentage", WireValue.f64 ⟨57⟩), ("IconName", WireValue.str "battery-good"),
        ("State", WireValue.u32 1), ("TimeToFull", WireValue.i64 0),
        ("TimeToEmpty", WireValue.i64 7200)]] =
      ([], [], some "expected percentage: f64 in HashMap of all properties") :=
  ⟨rfl,
    C4_amended_fetch_abort []
      [("Type", WireValue.u32 2), ("NativePath", WireValue.str "BAT0"),
       ("Percentage", WireValue.str "bad")]
      [[("Type", WireValue.u32 2), ("NativePath", WireValue.str "BAT1"),
        ("Percentage", WireValue.f64 ⟨57⟩), ("IconName", WireValue.str "battery-good"),
        ("State", WireValue.u32 1), ("TimeToFull", WireValue.i64 0),
        ("TimeToEmpty", WireValue.i64 7200)]]
      "expected percentage: f64 in HashMap of all properties" rfl⟩

/-- C6: when a matching change event arrives for a device identity that has
no store entry, the listener materializes the zero-valued default entry —
percentage `0.0`, empty icon name, `Unknown` state, zero times — rather than
failing, and applies the event's changed fields to that default entry. -/
theorem C6_default_materialization (native_path : String) (store : Store) (ev : ChangeEvent)
    (habs : storeFind store native_path = none)
    (hint : ev.interface_name = deviceInterfaceName) :
    defaultProperties =
      { percentage := ⟨0⟩, icon_name := "", state := BatteryState.Unknown,
        time_to_full := 0, time_to_empty := 0 } ∧
    listenerStep native_path store ev =
      (match applyFieldsPartial defaultProperties ev.changed_properties with
       | (props, none) =>
         StepResult.ok (storeInsert store native_path props)
           [storeInsert store native_path props]
       | (props, some e) => StepResult.panicked (storeInsert store native_path props) e) := by
  refine ⟨rfl, ?_⟩
  simp [listenerStep, hint, habs]

/-- C6, witnessed: a `Percentage`-only event on an empty store creates the
entry with every other field at its default. -/
theorem C6_witness :
    storeFind [] "bat0" = none ∧
    listenerStep "bat0" [] ⟨deviceInterfaceName, [("Percentage", WireValue.f64 ⟨42⟩)]⟩ =
      StepResult.ok
        [("bat0", { percentage := ⟨42⟩, icon_name := "", state := BatteryState.Unknown,
                    time_to_full := 0, time_to_empty := 0 })]
        [[("bat0", { percentage := ⟨42⟩, icon_name := "", state := BatteryState.Unknown,
                     time_to_full := 0, time_to_empty := 0 })]] :=
  ⟨rfl,
    (C6_default_materialization "bat0" []
      ⟨deviceInterfaceName, [("Percentage", WireValue.f64 ⟨42⟩)]⟩ rfl rfl).2⟩

/-- C7: an event whose interface name differs from the battery device
interface is discarded — no store mutation and no publish; a matching event
whose changed fields all apply broadcasts exactly one snapshot, taken after
all of the event's fields have been applied (one publish per event, never
one per field). -/
theorem C7_publish_once_per_event (native_path : String) (store : Store) (ev : ChangeEvent) :
    (ev.interface_name ≠ deviceInterfaceName →
      listenerStep native_path store ev = StepResult.ok store []) ∧
    (∀ q : UpowerProperties,
      ev.interface_name = deviceInterfaceName →
      applyFieldsPartial ((storeFind store native_path).getD defaultProperties)
        ev.changed_properties = (q, none) →
      listenerStep native_path store ev =
        StepResult.ok (storeInsert store native_path q)
          [storeInsert store native_path q]) := by
  constructor
  · intro hne
    simp [listenerStep, hne]
  · intro q hint happ
    simp [listenerStep, hint, happ]

/-- C7, witnessed: a foreign-interface event is a no-op with no publish; a
matching two-field event yields exactly one published snapshot, carrying both
fields applied. -/
theorem C7_witness :
    ("org.freedesktop.DBus.Other" : String) ≠ deviceInterfaceName ∧
    listenerStep "bat0" [("bat0", defaultProperties)]
      ⟨"org.freedesktop.DBus.Other", [("Percentage", WireValue.f64 ⟨60⟩)]⟩ =
      StepResult.ok [("bat0", defaultProperties)] [] ∧
    listenerStep "bat0" [("bat0", defaultProperties)]
      ⟨deviceInterfaceName,
        [("TimeToEmpty", WireValue.i64 7200), ("IconName", WireValue.str "battery-low")]⟩ =
      StepResult.ok
        [("bat0", { percentage := ⟨0⟩, icon_name := "battery-low",
                    state := BatteryState.Unknown, time_to_full := 0, time_to_empty := 7200 })]
        [[("bat0", { percentage := ⟨0⟩, icon_name := "battery-low",
                     state := BatteryState.Unknown, time_to_full := 0, time_to_empty := 7200 })]] := by
  refine ⟨by decide, ?_, ?_⟩
  · exact (C7_publish_once_per_event "bat0" [("bat0", defaultProperties)]
      ⟨"org.freedesktop.DBus.Other", [("Percentage", WireValue.f64 ⟨60⟩)]⟩).1 (by decide)
  · exact (C7_publish_once_per_event "bat0" [("bat0", defaultProperties)]
      ⟨deviceInterfaceName,
        [("TimeToEmpty", WireValue.i64 7200), ("IconName", WireValue.str "battery-low")]⟩).2
      { percentage := ⟨0⟩, icon_name := "battery-low", state := BatteryState.Unknown,
        time_to_full := 0, time_to_empty := 7200 } rfl rfl

/-- C9: the controller spawns a listener for every enumerated device with no
battery-type filter, so a matching change event from a non-battery device
(here with a `Type` decoding to a non-battery code) materializes a store
entry keyed by that device's `NativePath` — and that entry is in the
published snapshot — even though the fetch skips the device. -/
theorem C9_listener_ignores_type_filter
    (devices : List (List (String × WireValue))) (raw : List (String × WireValue))
    (hmem : raw ∈ devices) (native_path : String)
    (hnp : (propsGet raw "NativePath").bind WireValue.downcastStr = some native_path)
    (t : Nat) (ht : (propsGet raw "Type").bind WireValue.downcastU32 = some t) (ht2 : t ≠ 2)
    (store : Store) (ev : ChangeEvent) (hint : ev.interface_name = deviceInterfaceName)
    (q : UpowerProperties)
    (happ : applyFieldsPartial ((storeFind store native_path).getD defaultProperties)
      ev.changed_properties = (q, none)) :
    Except.ok native_path ∈ listenerIdentities devices ∧
    fetchDevice raw = Except.ok none ∧
    listenerStep native_path store ev =
      StepResult.ok (storeInsert store native_path q) [storeInsert store native_path q] ∧
    storeFind (storeInsert store native_path q) native_path = some q := by
  refine ⟨?_, ?_, ?_, storeFind_insert_self store native_path q⟩
  · simp only [listenerIdentities, List.mem_map]
    exact ⟨raw, hmem, by simp [expectMsg, hnp]⟩
  · simp [fetchDevice, ht, expectMsg, ht2, Bind.bind, Except.bind, Pure.pure, Except.pure]
  · simp [listenerStep, hint, happ]

/-- C9, witnessed: a line-power device (`Type = 1`) gets a listener and a
store entry from a matching event, though the fetch skips it. -/
theorem C9_witness :
    Except.ok "line_power_AC" ∈
      listenerIdentities [[("Type", WireValue.u32 1), ("NativePath", WireValue.str "line_power_AC")]] ∧
    fetchDevice [("Type", WireValue.u32 1), ("NativePath", WireValue.str "line_power_AC")] =
      Except.ok none ∧
    listenerStep "line_power_AC" [] ⟨deviceInterfaceName, [("IconName", WireValue.str "ac-adapter")]⟩ =
      StepResult.ok
        [("line_power_AC", { percentage := ⟨0⟩, icon_name := "ac-adapter",
                             state := BatteryState.Unknown, time_to_full := 0, time_to_empty := 0 })]
        [[("line_power_AC", { percentage := ⟨0⟩, icon_name := "ac-adapter",
                              state := BatteryState.Unknown, time_to_full := 0, time_to_empty := 0 })]] ∧
    storeFind
      [("line_power_AC", { percentage := ⟨0⟩, icon_name := "ac-adapter",
                           state := BatteryState.Unknown, time_to_full := 0, time_to_empty := 0 })]
      "line_power_AC" =
      some { percentage := ⟨0⟩, icon_name := "ac-adapter", state := BatteryState.Unknown,
             time_to_full := 0, time_to_empty := 0 } := by
  have h := C9_listener_ignores_type_filter
    [[("Type", WireValue.u32 1), ("NativePath", WireValue.str "line_power_AC")]]
    [("Type", WireValue.u32 1), ("NativePath", WireValue.str "line_power_AC")]
    (List.mem_singleton.mpr rfl) "line_power_AC" rfl 1 rfl (by decide)
    [] ⟨deviceInterfaceName, [("IconName", WireValue.str "ac-adapter")]⟩ rfl
    { percentage := ⟨0⟩, icon_name := "ac-adapter", state := BatteryState.Unknown,
      time_to_full := 0, time_to_empty := 0 } rfl
  exact h

end Claims

end Ironbar
